import Mathlib

/-!
Verification of the OpenSAM core subsystem: the multi-provider LLM gateway,
the fixed-window rate limiter, the cosine-similarity semantic re-ranking of
SAM.gov opportunity records, and the short-TTL search-result cache.

The definitions below are a shallow embedding of the TypeScript source:
  * `cosineSimilarity`  — src/lib/utils.ts (cosineSimilarity)
  * `checkRateLimit`    — src/app/api/chat/route.ts (checkRateLimit) and
                          src/pages/api/sam-search.ts (checkSAMRateLimit),
                          parametrised by maxRequests and window size; both
                          functions have identical transition semantics.
  * `callOpenAI`, `callAnthropic`, `callHuggingFace`
                        — the response-normalisation step of the provider
                          adapters in src/app/api/chat/route.ts; the HTTP
                          transport is abstracted, each function maps the
                          parsed upstream success body to the normalised
                          `LLMResponse` exactly as the source does.
  * `performSemanticSearch`, `handleSearch`
                        — src/pages/api/sam-search.ts; `generateEmbeddings`
                          (a network call keyed by provider and api key) is
                          abstracted as an `embed` function argument.

Time is modelled as an integer millisecond count, JS numbers used as token
counts as naturals, and embedding-vector components as real numbers.
-/

namespace OpenSAM

/-! ### Association-map helpers

`Map<string, T>` lookup and insert (used for the rate-limit map, the search
result cache, and for `req.query` parameter lookup). -/

def assocFind {α : Type} (m : List (String × α)) (k : String) : Option α :=
  match m with
  | [] => none
  | (k0, v) :: rest => if k0 = k then some v else assocFind rest k

def assocSet {α : Type} (m : List (String × α)) (k : String) (v : α) :
    List (String × α) :=
  match m with
  | [] => [(k, v)]
  | (k0, v0) :: rest =>
    if k0 = k then (k0, v) :: rest else (k0, v0) :: assocSet rest k v

theorem assocFind_assocSet {α : Type} (m : List (String × α)) (k : String) (v : α) :
    assocFind (assocSet m k v) k = some v := by
  induction m with
  | nil => simp [assocFind, assocSet]
  | cons hd tl ih =>
    obtain ⟨k0, v0⟩ := hd
    by_cases h : k0 = k
    · simp [assocFind, assocSet, h]
    · simp [assocFind, assocSet, h, ih]

/-! ### Cosine similarity (src/lib/utils.ts)

The source computes, in one loop over equal-length arrays, the dot product
and the two sums of squares, then returns
`dotProduct / (Math.sqrt(normA) * Math.sqrt(normB))`; on a length mismatch
it throws `Error('Vectors must have the same length')` before the loop.
A thrown JS error is modelled as `Except.error` carrying the message. -/

def dotProduct (a b : List ℝ) : ℝ :=
  ((a.zip b).map (fun p => p.1 * p.2)).sum

def sumSquares (a : List ℝ) : ℝ :=
  (a.map (fun x => x * x)).sum

noncomputable def cosineSimilarity (a b : List ℝ) : Except String ℝ :=
  if a.length ≠ b.length then .error "Vectors must have the same length"
  else .ok (dotProduct a b / (Real.sqrt (sumSquares a) * Real.sqrt (sumSquares b)))

theorem dotProduct_nil_left (b : List ℝ) : dotProduct [] b = 0 := by
  simp [dotProduct]

theorem dotProduct_nil_right (a : List ℝ) : dotProduct a [] = 0 := by
  simp [dotProduct]

theorem dotProduct_cons (x y : ℝ) (a b : List ℝ) :
    dotProduct (x :: a) (y :: b) = x * y + dotProduct a b := by
  simp [dotProduct]

theorem sumSquares_nil : sumSquares [] = 0 := by simp [sumSquares]

theorem sumSquares_cons (x : ℝ) (a : List ℝ) :
    sumSquares (x :: a) = x * x + sumSquares a := by
  simp [sumSquares]

theorem dotProduct_self (a : List ℝ) : dotProduct a a = sumSquares a := by
  induction a with
  | nil => simp [dotProduct, sumSquares]
  | cons x t ih => rw [dotProduct_cons, sumSquares_cons, ih]

theorem sumSquares_nonneg (a : List ℝ) : 0 ≤ sumSquares a := by
  induction a with
  | nil => simp [sumSquares]
  | cons x t ih =>
    rw [sumSquares_cons]
    have := mul_self_nonneg x
    linarith

theorem sumSquares_pos (a : List ℝ) (x : ℝ) (hx : x ∈ a) (hx0 : x ≠ 0) :
    0 < sumSquares a := by
  induction a with
  | nil => simp at hx
  | cons y t ih =>
    rw [sumSquares_cons]
    rcases List.mem_cons.mp hx with h | h
    · subst h
      have h1 : 0 < x * x := mul_self_pos.mpr hx0
      have h2 := sumSquares_nonneg t
      linarith
    · have := ih h
      have := mul_self_nonneg y
      linarith

theorem sumSquares_eq_zero (a : List ℝ) (h : ∀ x ∈ a, x = 0) : sumSquares a = 0 := by
  induction a with
  | nil => simp [sumSquares]
  | cons y t ih =>
    rw [sumSquares_cons, h y (List.mem_cons_self y t), ih (fun x hx => h x (List.mem_cons_of_mem y hx))]
    ring

/-! ### Fixed-window rate limiter

src/app/api/chat/route.ts `checkRateLimit` and
src/pages/api/sam-search.ts `checkSAMRateLimit` share the same transition
function on a per-identity map entry `{count, timestamp}`; only the constants
differ (chat: 20 requests / 60000 ms, search: 100 requests / 60000 ms).
The caller identity string (derived from forwarded-for headers, with
`'unknown'` as fallback) is abstracted as `ip`. -/

structure RateEntry where
  count : Nat
  timestamp : Int
deriving DecidableEq, Repr

abbrev RateMap := List (String × RateEntry)

def RATE_LIMIT_WINDOW : Int := 60000
def RATE_LIMIT_MAX_REQUESTS : Nat := 20
def SAM_RATE_LIMIT_WINDOW : Int := 60000
def SAM_RATE_LIMIT_MAX_REQUESTS : Nat := 100

def checkRateLimit (maxRequests : Nat) (window : Int) (m : RateMap)
    (ip : String) (now : Int) : Bool × RateMap :=
  match assocFind m ip with
  | none => (true, assocSet m ip ⟨1, now⟩)
  | some clientData =>
    if window < now - clientData.timestamp then
      (true, assocSet m ip ⟨1, now⟩)
    else if maxRequests ≤ clientData.count then
      (false, m)
    else
      (true, assocSet m ip ⟨clientData.count + 1, clientData.timestamp⟩)

/-- Run a sequence of rate-limit checks for one identity at the given
timestamps, collecting the boolean verdicts and threading the map. -/
def runChecks (maxRequests : Nat) (window : Int) (ip : String) (m : RateMap) :
    List Int → List Bool × RateMap
  | [] => ([], m)
  | t :: ts =>
    let r := checkRateLimit maxRequests window m ip t
    let rest := runChecks maxRequests window ip r.2 ts
    (r.1 :: rest.1, rest.2)

theorem checkRateLimit_fresh (maxRequests : Nat) (window : Int) (m : RateMap)
    (ip : String) (now : Int) (h : assocFind m ip = none) :
    checkRateLimit maxRequests window m ip now = (true, assocSet m ip ⟨1, now⟩) := by
  simp [checkRateLimit, h]

theorem checkRateLimit_in_window_accept (maxRequests : Nat) (window : Int)
    (m : RateMap) (ip : String) (now : Int) (c : Nat) (t0 : Int)
    (hfind : assocFind m ip = some ⟨c, t0⟩)
    (hwin : now - t0 ≤ window) (hc : c < maxRequests) :
    checkRateLimit maxRequests window m ip now =
      (true, assocSet m ip ⟨c + 1, t0⟩) := by
  simp [checkRateLimit, hfind, not_lt.mpr hwin, Nat.not_le.mpr hc]

/-- Accumulation lemma: while the window has not elapsed and the count stays
below the maximum, every check is accepted and the count grows by one per
check with an unchanged window start. -/
theorem runChecks_all_accept (maxRequests : Nat) (window : Int) (ip : String) :
    ∀ (ts : List Int) (m : RateMap) (c : Nat) (t0 : Int),
      assocFind m ip = some ⟨c, t0⟩ →
      (∀ t ∈ ts, t - t0 ≤ window) →
      c + ts.length ≤ maxRequests →
      ∃ m', runChecks maxRequests window ip m ts = (List.replicate ts.length true, m') ∧
        assocFind m' ip = some ⟨c + ts.length, t0⟩
  | [], m, c, t0, hfind, _, _ => ⟨m, by simp [runChecks, hfind]⟩
  | t :: ts, m, c, t0, hfind, hwin, hle => by
    have hacc := checkRateLimit_in_window_accept maxRequests window m ip t c t0
      hfind (hwin t (List.mem_cons_self t ts)) (by simp at hle; omega)
    have hfind1 : assocFind (assocSet m ip ⟨c + 1, t0⟩) ip = some ⟨c + 1, t0⟩ :=
      assocFind_assocSet m ip _
    obtain ⟨m', hrun, hfind'⟩ := runChecks_all_accept maxRequests window ip ts
      (assocSet m ip ⟨c + 1, t0⟩) (c + 1) t0 hfind1
      (fun u hu => hwin u (List.mem_cons_of_mem t hu)) (by simp at hle ⊢; omega)
    refine ⟨m', ?_, ?_⟩
    · simp [runChecks, hacc, hrun, List.replicate_succ]
    · rw [hfind']
      congr 1
      simp
      omega

/-! ### Multi-provider chat gateway (src/app/api/chat/route.ts)

The normalised response type `LLMResponse` follows src/types/index.ts:
`{content: string, usage?: {prompt_tokens, completion_tokens, total_tokens},
model: string, provider}` — note that `usage` is OPTIONAL in the type.
Each `call*` function below is the response-normalisation step of the
corresponding adapter: it receives the parsed upstream success body (the
value of `await response.json()` on the 2xx path) and produces the
`LLMResponse` the adapter returns.  A JS `TypeError` raised while unwrapping
a missing field (e.g. `choices[0]` on an empty array) is an `Except.error`. -/

inductive LLMProvider
  | openai
  | anthropic
  | huggingface
deriving DecidableEq, Repr

structure TokenUsage where
  prompt_tokens : Nat
  completion_tokens : Nat
  total_tokens : Nat
deriving DecidableEq, Repr

structure LLMResponse where
  content : String
  usage : Option TokenUsage
  model : String
  provider : LLMProvider
deriving DecidableEq, Repr

/-- JS `||` on a possibly-undefined string: the default is used when the
value is undefined or the empty string (falsy). -/
def jsOrString (v : Option String) (d : String) : String :=
  match v with
  | some s => if s = "" then d else s
  | none => d

structure OpenAIMessage where
  content : String
deriving DecidableEq, Repr

structure OpenAIChoice where
  message : OpenAIMessage
deriving DecidableEq, Repr

/-- Parsed OpenAI chat-completions success body: the fields the adapter
reads (`choices[0].message.content`, `usage`, `model`). -/
structure OpenAIChatBody where
  choices : List OpenAIChoice
  usage : Option TokenUsage
  model : String
deriving DecidableEq, Repr

/-- Normalisation step of `callOpenAI`: `content` from
`data.choices[0].message.content`, `usage: data.usage` passed through
unchanged, `model: data.model`, `provider: 'openai'`. -/
def callOpenAI (data : OpenAIChatBody) : Except String LLMResponse :=
  match data.choices with
  | [] => .error "TypeError: cannot read message of undefined"
  | c :: _ =>
    .ok { content := c.message.content
          usage := data.usage
          model := data.model
          provider := .openai }

/-- Anthropic usage block as read by the adapter: each token-count field is
accessed through optional chaining and may be absent. -/
structure AnthropicUsage where
  prompt_tokens : Option Nat
  completion_tokens : Option Nat
deriving DecidableEq, Repr

/-- Parsed Anthropic completion-style success body: the adapter reads
`data.completion`, `data.usage?.prompt_tokens`, `data.usage?.completion_tokens`
and `data.model`. -/
structure AnthropicBody where
  completion : String
  usage : Option AnthropicUsage
  model : Option String
deriving DecidableEq, Repr

/-- Normalisation step of `callAnthropic`: token counts default to 0 via
`|| 0`, `total_tokens` is their sum, `model` falls back to the requested
model via `data.model || model`. -/
def callAnthropic (data : AnthropicBody) (model : String) : LLMResponse :=
  let p := (data.usage.bind AnthropicUsage.prompt_tokens).getD 0
  let c := (data.usage.bind AnthropicUsage.completion_tokens).getD 0
  { content := data.completion
    usage := some { prompt_tokens := p, completion_tokens := c, total_tokens := p + c }
    model := jsOrString data.model model
    provider := .anthropic }

structure HFGeneration where
  generated_text : String
deriving DecidableEq, Repr

/-- Hugging Face inference success body: either a JSON array of generations
or a single generation object (`Array.isArray(data) ? data[0].generated_text
: data.generated_text`). -/
inductive HFBody
  | arr (items : List HFGeneration)
  | obj (item : HFGeneration)
deriving DecidableEq, Repr

/-- The text the huggingface adapter extracts from the upstream body:
`Array.isArray(data) ? data[0].generated_text : data.generated_text`
(absent when the array is empty, where the JS unwrap would throw). -/
def hfGeneratedText (data : HFBody) : Option String :=
  match data with
  | .arr [] => none
  | .arr (g :: _) => some g.generated_text
  | .obj g => some g.generated_text

/-- Normalisation step of `callHuggingFace`: usage is hard-coded to zeros
because the provider reports no token counts; `model` echoes the requested
model. -/
def callHuggingFace (data : HFBody) (model : String) : Except String LLMResponse :=
  match data with
  | .arr [] => .error "TypeError: cannot read generated_text of undefined"
  | .arr (g :: _) =>
    .ok { content := g.generated_text
          usage := some { prompt_tokens := 0, completion_tokens := 0, total_tokens := 0 }
          model := model
          provider := .huggingface }
  | .obj g =>
    .ok { content := g.generated_text
          usage := some { prompt_tokens := 0, completion_tokens := 0, total_tokens := 0 }
          model := model
          provider := .huggingface }

/-! ### Semantic search over SAM.gov opportunities (src/pages/api/sam-search.ts)

`SAMOpportunity` keeps the fields the core reads or writes (`title`,
`description`, `synopsis` feed the embedded text, `relevanceScore` receives
the similarity score); the remaining upstream metadata fields are opaque
pass-through and are represented by the `id` tag.

`generateEmbeddings(text, provider, apiKey)` performs a cached network call;
it is abstracted as an `embed : String → Except String (List ℝ)` argument
(the provider and api key are fixed for one search, so they are folded into
the function; any rejected promise is an `Except.error`). -/

structure SAMOpportunity where
  id : String
  title : String
  description : String
  synopsis : String
  relevanceScore : ℝ

/-- The text embedded for one opportunity:
`` `${opportunity.title} ${opportunity.description} ${opportunity.synopsis}` ``. -/
def oppText (o : SAMOpportunity) : String :=
  o.title ++ " " ++ o.description ++ " " ++ o.synopsis

/-- Embed one opportunity and attach its cosine similarity with the query
embedding (the body of the `opportunities.map` callback inside
`performSemanticSearch`); a rejected embedding call or a thrown similarity
error propagates. -/
noncomputable def scoreOpportunity (embed : String → Except String (List ℝ))
    (queryEmbeddings : List ℝ) (o : SAMOpportunity) :
    Except String SAMOpportunity :=
  match embed (oppText o) with
  | .error e => .error e
  | .ok opportunityEmbeddings =>
    match cosineSimilarity queryEmbeddings opportunityEmbeddings with
    | .error e => .error e
    | .ok similarity => .ok { o with relevanceScore := similarity }

/-- `Promise.all` over a list of fallible computations: the original order is
kept and any rejection rejects the whole computation. -/
def promiseAll {α β : Type} (f : α → Except String β) :
    List α → Except String (List β)
  | [] => .ok []
  | x :: xs =>
    match f x with
    | .error e => .error e
    | .ok y =>
      match promiseAll f xs with
      | .error e => .error e
      | .ok ys => .ok (y :: ys)

/-- The body of the `try` block of `performSemanticSearch`: embed the query,
then embed and score every opportunity. -/
noncomputable def scoreOpportunities (embed : String → Except String (List ℝ))
    (opportunities : List SAMOpportunity) (query : String) :
    Except String (List SAMOpportunity) :=
  match embed query with
  | .error e => .error e
  | .ok queryEmbeddings =>
    promiseAll (scoreOpportunity embed queryEmbeddings) opportunities

/-- Sort-comparator relation of
`.sort((a, b) => (b.relevanceScore || 0) - (a.relevanceScore || 0))`:
descending relevance score (`relevanceScore` is always a number here). -/
def scoreGE (a b : SAMOpportunity) : Prop :=
  b.relevanceScore ≤ a.relevanceScore

noncomputable instance : DecidableRel scoreGE :=
  fun _ _ => Real.decidableLE _ _

instance : IsTotal SAMOpportunity scoreGE :=
  ⟨fun a b => le_total b.relevanceScore a.relevanceScore⟩

instance : IsTrans SAMOpportunity scoreGE :=
  ⟨fun _ _ _ hab hbc => le_trans hbc hab⟩

/-- JS `Array.prototype.sort` is stable; a stable sort by descending score is
insertion sort with `scoreGE`. -/
noncomputable def sortByScoreDesc (l : List SAMOpportunity) : List SAMOpportunity :=
  l.insertionSort scoreGE

/-- JS `String.prototype.trim` on the character list: drop leading and
trailing whitespace.  (Core's `String.trim` is defined by well-founded
recursion on byte positions, which the kernel cannot evaluate; this
structural reimplementation computes the same string.) -/
def jsTrim (s : String) : String :=
  ⟨((s.data.dropWhile Char.isWhitespace).reverse.dropWhile
      Char.isWhitespace).reverse⟩

/-- src/pages/api/sam-search.ts `performSemanticSearch`: empty (trimmed)
query returns the input unchanged; an embedding failure anywhere is caught
and falls back to the input; otherwise the scored list is sorted by
descending score and truncated with `.slice(0, 25)`. -/
noncomputable def performSemanticSearch (embed : String → Except String (List ℝ))
    (opportunities : List SAMOpportunity) (query : String) :
    List SAMOpportunity :=
  if jsTrim query = "" then opportunities
  else
    match scoreOpportunities embed opportunities query with
    | .error _ => opportunities
    | .ok opportunitiesWithScores => (sortByScoreDesc opportunitiesWithScores).take 25

/-! ### Search request handler, filter canonicalisation and result cache
(src/pages/api/sam-search.ts `handler`)

`req.query` is modelled as an association list of query parameters (first
match wins, like a parsed query string).  The handler rebuilds the
`SAMSearchFilters` object field by field in a fixed literal order, so the
cache key `JSON.stringify(filters)` does not depend on the order in which
the caller supplied the query parameters. -/

/-- JS `parseInt` on the digit strings the claims exercise; the NaN result
for non-numeric input is out of scope of the verified properties (only
determinism of the value matters). -/
def parseIntJS (s : String) : Int :=
  (s.toInt?).getD 0

structure SAMSearchFilters where
  keyword : Option String
  startDate : Option String
  endDate : Option String
  naicsCode : Option String
  state : Option String
  agency : Option String
  type : Option String
  setAside : Option String
  active : Option Bool
  limit : Int
  offset : Int
deriving DecidableEq, Repr

/-- Build the `SAMSearchFilters` literal from the request's query
parameters, in the source's fixed field order.  `active` uses
`active ? active === 'true' : undefined`; `limit` and `offset` use
`x ? parseInt(x) : default` (the empty string is falsy). -/
def buildFilters (params : List (String × String)) : SAMSearchFilters :=
  { keyword := assocFind params "q"
    startDate := assocFind params "startDate"
    endDate := assocFind params "endDate"
    naicsCode := assocFind params "naicsCode"
    state := assocFind params "state"
    agency := assocFind params "agency"
    type := assocFind params "type"
    setAside := assocFind params "setAside"
    active :=
      match assocFind params "active" with
      | some s => if s = "" then none else some (s = "true")
      | none => none
    limit :=
      match assocFind params "limit" with
      | some s => if s = "" then 50 else parseIntJS s
      | none => 50
    offset :=
      match assocFind params "offset" with
      | some s => if s = "" then 0 else parseIntJS s
      | none => 0 }

def quoteJSON (s : String) : String := "\x22" ++ s ++ "\x22"

def optStrField (name : String) (v : Option String) : List String :=
  match v with
  | some s => [quoteJSON name ++ ":" ++ quoteJSON s]
  | none => []

def optBoolField (name : String) (v : Option Bool) : List String :=
  match v with
  | some b => [quoteJSON name ++ ":" ++ (if b then "true" else "false")]
  | none => []

def intField (name : String) (v : Int) : List String :=
  [quoteJSON name ++ ":" ++ toString v]

/-- `JSON.stringify(filters)`: the filters object serialised in its fixed
property order, with `undefined` properties omitted (string escaping is
elided — the verified properties use escape-free values). -/
def serializeFilters (f : SAMSearchFilters) : String :=
  "\x7b" ++ String.intercalate ","
    (optStrField "keyword" f.keyword ++ optStrField "startDate" f.startDate ++
     optStrField "endDate" f.endDate ++ optStrField "naicsCode" f.naicsCode ++
     optStrField "state" f.state ++ optStrField "agency" f.agency ++
     optStrField "type" f.type ++ optStrField "setAside" f.setAside ++
     optBoolField "active" f.active ++ intField "limit" f.limit ++
     intField "offset" f.offset) ++ "\x7d"

structure SAMSearchResponse where
  opportunities : List SAMOpportunity
  totalRecords : Nat
  limit : Int
  offset : Int

structure CachedSearch where
  data : SAMSearchResponse
  timestamp : Int

abbrev SearchCache := List (String × CachedSearch)

def CACHE_DURATION : Int := 5 * 60 * 1000

structure HandlerOutput where
  response : SAMSearchResponse
  cached : Bool

/-- src/pages/api/sam-search.ts `handler`, after rate limiting and api-key
validation: build the filters, check the result cache (lazy TTL expiry),
on a miss fetch from SAM.gov (the upstream fetch result is the `fetched`
argument), optionally perform semantic re-ranking when `semantic === 'true'`,
a non-empty `q` keyword and an LLM bearer token are present, then cache the
response object that is returned to the caller. -/
noncomputable def handleSearch (embed : String → Except String (List ℝ))
    (fetched : List SAMOpportunity) (params : List (String × String))
    (llmApiKey : Option String) (cache : SearchCache) (now : Int) :
    HandlerOutput × SearchCache :=
  let filters := buildFilters params
  let cacheKey := serializeFilters filters
  let hit : Option SAMSearchResponse :=
    match assocFind cache cacheKey with
    | some cachedResult =>
      if now - cachedResult.timestamp < CACHE_DURATION then some cachedResult.data
      else none
    | none => none
  match hit with
  | some data => ({ response := data, cached := true }, cache)
  | none =>
    let opportunities := fetched
    let keyword := (assocFind params "q").getD ""
    let semanticFlag := assocFind params "semantic" == some "true"
    let finalOpportunities :=
      if semanticFlag && !(keyword == "") then
        match llmApiKey with
        | some k =>
          if k = "" then opportunities
          else performSemanticSearch embed opportunities keyword
        | none => opportunities
      else opportunities
    let response : SAMSearchResponse :=
      { opportunities := finalOpportunities
        totalRecords := opportunities.length
        limit := if filters.limit = 0 then 50 else filters.limit
        offset := filters.offset }
    ({ response := response, cached := false },
      assocSet cache cacheKey { data := response, timestamp := now })

/-! ### Supporting lemmas for the cosine-similarity properties -/

theorem dotProduct_comm (a : List ℝ) : ∀ b, dotProduct a b = dotProduct b a := by
  induction a with
  | nil => intro b; cases b <;> simp [dotProduct]
  | cons x t ih =>
    intro b
    cases b with
    | nil => simp [dotProduct]
    | cons y u => rw [dotProduct_cons, dotProduct_cons, ih, mul_comm]

theorem dotProduct_map_neg (a : List ℝ) :
    dotProduct a (a.map fun y => -y) = -(sumSquares a) := by
  induction a with
  | nil => simp [dotProduct, sumSquares]
  | cons x t ih =>
    simp only [List.map_cons, dotProduct_cons, sumSquares_cons, ih]
    ring

theorem sumSquares_map_neg (a : List ℝ) :
    sumSquares (a.map fun y => -y) = sumSquares a := by
  induction a with
  | nil => simp [sumSquares]
  | cons x t ih =>
    simp only [List.map_cons, sumSquares_cons, ih]
    ring

/-- C7: on vectors of unequal length `cosineSimilarity` raises the
dimension-mismatch error (`Error('Vectors must have the same length')`) and
never returns a numeric result. -/
theorem cosineSimilarity_dimension_mismatch (a b : List ℝ)
    (h : a.length ≠ b.length) :
    cosineSimilarity a b = .error "Vectors must have the same length" ∧
      ∀ x : ℝ, cosineSimilarity a b ≠ .ok x := by
  refine ⟨by simp [cosineSimilarity, h], fun x => by simp [cosineSimilarity, h]⟩

theorem cosineSimilarity_dimension_mismatch_witness :
    cosineSimilarity [(1 : ℝ)] [0, 0] = .error "Vectors must have the same length" ∧
      ∀ x : ℝ, cosineSimilarity [(1 : ℝ)] [0, 0] ≠ .ok x :=
  cosineSimilarity_dimension_mismatch [(1 : ℝ)] [0, 0] (by simp)

/-- C8: for a vector with a non-zero component, similarity with itself is 1
and with its negation is -1; similarity is symmetric in its two arguments
(also in the mismatch case, where both orders raise the same error). -/
theorem cosineSimilarity_self_neg_symm (a : List ℝ) (x : ℝ)
    (hx : x ∈ a) (hx0 : x ≠ 0) :
    cosineSimilarity a a = .ok 1 ∧
    cosineSimilarity a (a.map fun y => -y) = .ok (-1) ∧
    ∀ b : List ℝ, cosineSimilarity a b = cosineSimilarity b a := by
  have hpos : 0 < sumSquares a := sumSquares_pos a x hx hx0
  have hsqrt : Real.sqrt (sumSquares a) * Real.sqrt (sumSquares a) = sumSquares a :=
    Real.mul_self_sqrt (le_of_lt hpos)
  refine ⟨?_, ?_, ?_⟩
  · rw [cosineSimilarity, if_neg (by simp)]
    rw [dotProduct_self, hsqrt, div_self (ne_of_gt hpos)]
  · rw [cosineSimilarity, if_neg (by simp)]
    rw [dotProduct_map_neg, sumSquares_map_neg, hsqrt, neg_div,
      div_self (ne_of_gt hpos)]
  · intro b
    by_cases hlen : a.length = b.length
    · rw [cosineSimilarity, cosineSimilarity, if_neg (by simp [hlen]),
        if_neg (by simp [hlen]), dotProduct_comm, mul_comm]
    · rw [cosineSimilarity, cosineSimilarity, if_pos hlen,
        if_pos (Ne.symm hlen)]

theorem cosineSimilarity_self_neg_symm_witness :
    cosineSimilarity [(3 : ℝ)] [(3 : ℝ)] = .ok 1 ∧
    cosineSimilarity [(3 : ℝ)] ([(3 : ℝ)].map fun y => -y) = .ok (-1) ∧
    ∀ b : List ℝ, cosineSimilarity [(3 : ℝ)] b = cosineSimilarity b [(3 : ℝ)] :=
  cosineSimilarity_self_neg_symm [(3 : ℝ)] 3 (by simp) (by norm_num)

/-- C10: the division in `cosineSimilarity` is unguarded — on equal-length
vectors of which at least one is all-zero, no error is raised (the length
check is the only guard) and the divisor, the product of the two vector
magnitudes, is 0, so the division is a division by zero. -/
theorem cosineSimilarity_zero_vector_unguarded (a b : List ℝ)
    (hlen : a.length = b.length)
    (hz : (∀ x ∈ a, x = 0) ∨ (∀ x ∈ b, x = 0)) :
    (∀ e : String, cosineSimilarity a b ≠ .error e) ∧
    Real.sqrt (sumSquares a) * Real.sqrt (sumSquares b) = 0 := by
  constructor
  · intro e
    simp [cosineSimilarity, hlen]
  · rcases hz with h | h
    · rw [sumSquares_eq_zero a h, Real.sqrt_zero, zero_mul]
    · rw [sumSquares_eq_zero b h, Real.sqrt_zero, mul_zero]

theorem cosineSimilarity_zero_vector_unguarded_witness :
    (∀ e : String, cosineSimilarity [(0 : ℝ)] [(3 : ℝ)] ≠ .error e) ∧
    Real.sqrt (sumSquares [(0 : ℝ)]) * Real.sqrt (sumSquares [(3 : ℝ)]) = 0 :=
  cosineSimilarity_zero_vector_unguarded [(0 : ℝ)] [(3 : ℝ)] (by simp)
    (Or.inl (by simp))

/-- C2: for a fresh identity and `maxRequests = N ≥ 1`, the first `N` checks
within the window (here at `t0` and at later times `ts` with
`t - t0 ≤ window`) are all accepted, leaving a window entry with count `N`
and start `t0`; an `N+1`-th check still inside the window is rejected with
the state unchanged; and any check made more than `window` after an entry's
window start is accepted and resets that entry to count 1 and start `now`. -/
theorem rate_limit_window_property (N : Nat) (window : Int) (ip : String)
    (m : RateMap) (hfresh : assocFind m ip = none) (t0 : Int) (ts : List Int)
    (hlen : ts.length + 1 = N) (hwin : ∀ t ∈ ts, t - t0 ≤ window)
    (tN : Int) (htN : tN - t0 ≤ window) :
    ∃ m', runChecks N window ip m (t0 :: ts) = (List.replicate N true, m') ∧
      assocFind m' ip = some ⟨N, t0⟩ ∧
      checkRateLimit N window m' ip tN = (false, m') ∧
      ∀ (m2 : RateMap) (c : Nat) (t1 now : Int),
        assocFind m2 ip = some ⟨c, t1⟩ → window < now - t1 →
        checkRateLimit N window m2 ip now = (true, assocSet m2 ip ⟨1, now⟩) := by
  have hfirst := checkRateLimit_fresh N window m ip t0 hfresh
  have hfind1 : assocFind (assocSet m ip ⟨1, t0⟩) ip = some ⟨1, t0⟩ :=
    assocFind_assocSet m ip _
  obtain ⟨m', hrun, hfind'⟩ := runChecks_all_accept N window ip ts
    (assocSet m ip ⟨1, t0⟩) 1 t0 hfind1 hwin (by omega)
  have hfindN : assocFind m' ip = some ⟨N, t0⟩ := by
    rw [hfind']
    congr 2
    omega
  refine ⟨m', ?_, hfindN, ?_, ?_⟩
  · have : runChecks N window ip m (t0 :: ts) =
        (true :: (runChecks N window ip (assocSet m ip ⟨1, t0⟩) ts).1,
          (runChecks N window ip (assocSet m ip ⟨1, t0⟩) ts).2) := by
      simp [runChecks, hfirst]
    rw [this, hrun]
    have hN : N = ts.length + 1 := hlen.symm
    subst hN
    simp [List.replicate_succ]
  · simp [checkRateLimit, hfindN, not_lt.mpr htN]
  · intro m2 c t1 now hfind2 hnow
    simp [checkRateLimit, hfind2, hnow]

theorem rate_limit_window_property_witness :
    ∃ m', runChecks 2 10 "a" [] [0, 3] = (List.replicate 2 true, m') ∧
      assocFind m' "a" = some ⟨2, 0⟩ ∧
      checkRateLimit 2 10 m' "a" 5 = (false, m') ∧
      ∀ (m2 : RateMap) (c : Nat) (t1 now : Int),
        assocFind m2 "a" = some ⟨c, t1⟩ → 10 < now - t1 →
        checkRateLimit 2 10 m2 "a" now = (true, assocSet m2 "a" ⟨1, now⟩) :=
  rate_limit_window_property 2 10 "a" [] (by simp [assocFind]) 0 [3]
    (by simp) (by simp) 5 (by norm_num)

/-- C9: a rejected rate-limit check is read-only — when the identity's
current window has reached the maximum and has not expired, the check
returns `false` and the whole rate-limit map, including that identity's
count and window start, is unchanged. -/
theorem rate_limit_reject_preserves_state (N : Nat) (window : Int)
    (m : RateMap) (ip : String) (c : Nat) (t0 now : Int)
    (hfind : assocFind m ip = some ⟨c, t0⟩) (hc : N ≤ c)
    (hwin : now - t0 ≤ window) :
    checkRateLimit N window m ip now = (false, m) := by
  simp [checkRateLimit, hfind, not_lt.mpr hwin, hc]

theorem rate_limit_reject_preserves_state_witness :
    checkRateLimit 2 10 [("a", ⟨2, 0⟩)] "a" 5 = (false, [("a", ⟨2, 0⟩)]) :=
  rate_limit_reject_preserves_state 2 10 [("a", ⟨2, 0⟩)] "a" 2 0 5
    (by simp [assocFind]) (by norm_num) (by norm_num)

/-- C1 counterexample: a successful OpenAI completion whose upstream body
reports no usage block is normalised with `usage` absent — the token-count
fields are NOT defaulted to 0, so the openai adapter violates the claimed
all-default-0 usage invariant. -/
theorem callOpenAI_usage_not_defaulted :
    callOpenAI { choices := [{ message := { content := "Hello there" } }],
                 usage := none, model := "gpt-4" } =
      .ok { content := "Hello there", usage := none, model := "gpt-4",
            provider := .openai } ∧
    (none : Option TokenUsage) ≠
      some { prompt_tokens := 0, completion_tokens := 0, total_tokens := 0 } :=
  ⟨rfl, by simp⟩

/-- C1 amended: every successful adapter call returns the normalised
`LLMResponse` shape with `provider` equal to the requested provider and
`content` equal to the text extracted from the upstream body — hence
non-empty whenever the provider returned non-empty text — but the usage
behaviour is per-adapter: the openai adapter passes the upstream usage
block through unchanged (absent, not zeroed, when the provider does not
report it), the anthropic adapter always produces a usage block whose
missing counts default to 0 and whose `total_tokens` is the sum of the
other two, and the huggingface adapter always reports all-zero usage. -/
theorem llm_adapters_normalized_amended
    (ob : OpenAIChatBody) (r : LLMResponse) (hok : callOpenAI ob = .ok r)
    (ad : AnthropicBody) (am : String)
    (hb : HFBody) (hm : String) (hr : LLMResponse)
    (hhf : callHuggingFace hb hm = .ok hr) :
    (r.provider = .openai ∧ r.usage = ob.usage ∧ r.model = ob.model ∧
      (ob.choices.map fun c => c.message.content).head? = some r.content ∧
      (∀ t, (ob.choices.map fun c => c.message.content).head? = some t →
        ¬ t = "" → ¬ r.content = "")) ∧
    ((callAnthropic ad am).provider = .anthropic ∧
      (callAnthropic ad am).content = ad.completion ∧
      (¬ ad.completion = "" → ¬ (callAnthropic ad am).content = "") ∧
      ∃ u, (callAnthropic ad am).usage = some u ∧
        u.total_tokens = u.prompt_tokens + u.completion_tokens ∧
        (ad.usage = none →
          u = { prompt_tokens := 0, completion_tokens := 0, total_tokens := 0 })) ∧
    (hr.provider = .huggingface ∧
      hfGeneratedText hb = some hr.content ∧
      (∀ t, hfGeneratedText hb = some t → ¬ t = "" → ¬ hr.content = "") ∧
      hr.usage = some { prompt_tokens := 0, completion_tokens := 0, total_tokens := 0 } ∧
      hr.model = hm) := by
  refine ⟨?_, ?_, ?_⟩
  · rcases hco : ob.choices with _ | ⟨c, rest⟩ <;> rw [callOpenAI, hco] at hok
    · exact absurd hok (by simp)
    · have h := Except.ok.inj hok
      rw [← h]
      refine ⟨rfl, rfl, rfl, rfl, ?_⟩
      intro t ht hne
      simp only [List.map_cons, List.head?_cons, Option.some.injEq] at ht
      rw [← ht] at hne
      exact hne
  · refine ⟨rfl, rfl, fun h => h, ?_⟩
    refine ⟨_, rfl, rfl, ?_⟩
    intro h
    simp [h]
  · cases hb with
    | arr items =>
      cases items with
      | nil => rw [callHuggingFace] at hhf; exact absurd hhf (by simp)
      | cons g rest =>
        rw [callHuggingFace] at hhf
        have h := Except.ok.inj hhf
        rw [← h]
        refine ⟨rfl, rfl, ?_, rfl, rfl⟩
        intro t ht hne
        simp only [hfGeneratedText, Option.some.injEq] at ht
        rw [← ht] at hne
        exact hne
    | obj g =>
      rw [callHuggingFace] at hhf
      have h := Except.ok.inj hhf
      rw [← h]
      refine ⟨rfl, rfl, ?_, rfl, rfl⟩
      intro t ht hne
      simp only [hfGeneratedText, Option.some.injEq] at ht
      rw [← ht] at hne
      exact hne

theorem llm_adapters_normalized_amended_witness :
    (LLMProvider.openai = LLMProvider.openai ∧
      (some { prompt_tokens := 1, completion_tokens := 2, total_tokens := 3 } :
        Option TokenUsage) =
        some { prompt_tokens := 1, completion_tokens := 2, total_tokens := 3 } ∧
      "gpt-4o" = "gpt-4o" ∧
      (([{ message := { content := "hi" } }] : List OpenAIChoice).map
        fun c => c.message.content).head? = some "hi" ∧
      (∀ t, (([{ message := { content := "hi" } }] : List OpenAIChoice).map
          fun c => c.message.content).head? = some t →
        ¬ t = "" → ¬ "hi" = "")) ∧
    ((callAnthropic { completion := "ok", usage := none, model := none }
        "claude-2").provider = .anthropic ∧
      (callAnthropic { completion := "ok", usage := none, model := none }
        "claude-2").content = "ok" ∧
      (¬ "ok" = "" →
        ¬ (callAnthropic { completion := "ok", usage := none, model := none }
          "claude-2").content = "") ∧
      ∃ u, (callAnthropic { completion := "ok", usage := none, model := none }
        "claude-2").usage = some u ∧
        u.total_tokens = u.prompt_tokens + u.completion_tokens ∧
        ((none : Option AnthropicUsage) = none →
          u = { prompt_tokens := 0, completion_tokens := 0, total_tokens := 0 })) ∧
    (LLMProvider.huggingface = LLMProvider.huggingface ∧
      hfGeneratedText (.obj { generated_text := "gen" }) = some "gen" ∧
      (∀ t, hfGeneratedText (.obj { generated_text := "gen" }) = some t →
        ¬ t = "" → ¬ "gen" = "") ∧
      (some { prompt_tokens := 0, completion_tokens := 0, total_tokens := 0 } :
        Option TokenUsage) =
        some { prompt_tokens := 0, completion_tokens := 0, total_tokens := 0 } ∧
      "distilgpt2" = "distilgpt2") := by
  have h := llm_adapters_normalized_amended
    { choices := [{ message := { content := "hi" } }],
      usage := some { prompt_tokens := 1, completion_tokens := 2, total_tokens := 3 },
      model := "gpt-4o" }
    { content := "hi",
      usage := some { prompt_tokens := 1, completion_tokens := 2, total_tokens := 3 },
      model := "gpt-4o", provider := .openai }
    rfl
    { completion := "ok", usage := none, model := none } "claude-2"
    (.obj { generated_text := "gen" }) "distilgpt2"
    { content := "gen",
      usage := some { prompt_tokens := 0, completion_tokens := 0, total_tokens := 0 },
      model := "distilgpt2", provider := .huggingface }
    rfl
  exact h

/-- Association lookup is invariant under permutation of a duplicate-free
parameter list. -/
theorem assocFind_perm {α : Type} {p1 p2 : List (String × α)}
    (h : p1.Perm p2) (hnd : (p1.map Prod.fst).Nodup) (k : String) :
    assocFind p1 k = assocFind p2 k := by
  induction h with
  | nil => rfl
  | cons x h ih =>
    simp only [List.map_cons, List.nodup_cons] at hnd
    by_cases hx : x.1 = k <;> simp [assocFind, hx, ih hnd.2]
  | swap x y l =>
    simp only [List.map_cons, List.nodup_cons, List.mem_cons] at hnd
    by_cases hy : y.1 = k <;> by_cases hx : x.1 = k
    · exact absurd (hy.trans hx.symm) (fun hcon => hnd.1 (Or.inl hcon))
    · simp [assocFind, hy, hx]
    · simp [assocFind, hy, hx]
    · simp [assocFind, hy, hx]
  | trans h1 _ ih1 ih2 =>
    rw [ih1 hnd, ih2 ((h1.map Prod.fst).nodup_iff.mp hnd)]

/-- C5: two query-parameter lists with identical key/value pairs in any
order produce the same serialised cache key, and therefore the second
request finds the cache entry stored under the first request's key. -/
theorem cache_key_insertion_order_invariant (p1 p2 : List (String × String))
    (hperm : p1.Perm p2) (hnd : (p1.map Prod.fst).Nodup) :
    serializeFilters (buildFilters p1) = serializeFilters (buildFilters p2) ∧
    ∀ (cache : SearchCache) (entry : CachedSearch),
      assocFind (assocSet cache (serializeFilters (buildFilters p1)) entry)
        (serializeFilters (buildFilters p2)) = some entry := by
  have hbf : buildFilters p1 = buildFilters p2 := by
    simp [buildFilters, assocFind_perm hperm hnd]
  refine ⟨by rw [hbf], fun cache entry => ?_⟩
  rw [hbf]
  exact assocFind_assocSet cache _ entry

theorem cache_key_insertion_order_invariant_witness :
    serializeFilters (buildFilters [("q", "software"), ("state", "VA")]) =
      serializeFilters (buildFilters [("state", "VA"), ("q", "software")]) ∧
    ∀ (cache : SearchCache) (entry : CachedSearch),
      assocFind (assocSet cache
          (serializeFilters (buildFilters [("q", "software"), ("state", "VA")])) entry)
        (serializeFilters (buildFilters [("state", "VA"), ("q", "software")])) =
        some entry :=
  cache_key_insertion_order_invariant _ _
    (List.Perm.swap ("state", "VA") ("q", "software") [])
    (by simp)

/-! ### Concrete inputs used to exercise the semantic-search path -/

def oppA : SAMOpportunity :=
  { id := "A", title := "alpha", description := "d", synopsis := "s",
    relevanceScore := 0 }

def oppB : SAMOpportunity :=
  { id := "B", title := "beta", description := "d", synopsis := "s",
    relevanceScore := 0 }

noncomputable def oppA1 : SAMOpportunity :=
  { id := "A", title := "alpha", description := "d", synopsis := "s",
    relevanceScore := 1 }

noncomputable def oppAneg : SAMOpportunity :=
  { id := "A", title := "alpha", description := "d", synopsis := "s",
    relevanceScore := -1 }

noncomputable def oppB1 : SAMOpportunity :=
  { id := "B", title := "beta", description := "d", synopsis := "s",
    relevanceScore := 1 }

noncomputable def oppBneg : SAMOpportunity :=
  { id := "B", title := "beta", description := "d", synopsis := "s",
    relevanceScore := -1 }

/-- Embedding oracle where `oppA` matches the query and `oppB` opposes it. -/
noncomputable def embedCex : String → Except String (List ℝ) := fun s =>
  if s = "alpha d s" then .ok [1, 0]
  else if s = "beta d s" then .ok [-1, 0]
  else .ok [1, 0]

/-- Embedding oracle where `oppB` matches the query and `oppA` opposes it. -/
noncomputable def embedCex2 : String → Except String (List ℝ) := fun s =>
  if s = "alpha d s" then .ok [-1, 0]
  else if s = "beta d s" then .ok [1, 0]
  else .ok [1, 0]

/-- Embedding oracle whose upstream call always fails. -/
def embedFail : String → Except String (List ℝ) :=
  fun _ => .error "OpenAI Embeddings API error: invalid api key"

theorem cosineSimilarity_one_zero_same :
    cosineSimilarity [1, 0] [1, 0] = .ok 1 := by
  rw [cosineSimilarity, if_neg (by simp)]
  norm_num [dotProduct, sumSquares, Real.sqrt_one]

theorem cosineSimilarity_one_zero_opposite :
    cosineSimilarity [1, 0] [-1, 0] = .ok (-1) := by
  rw [cosineSimilarity, if_neg (by simp)]
  norm_num [dotProduct, sumSquares, Real.sqrt_one]

theorem scoreOpportunities_embedCex :
    scoreOpportunities embedCex [oppA, oppB] "software" = .ok [oppA1, oppBneg] := by
  have ha : embedCex (oppText oppA) = .ok [1, 0] := rfl
  have hb : embedCex (oppText oppB) = .ok [-1, 0] := rfl
  have hq : embedCex "software" = .ok [1, 0] := rfl
  simp only [scoreOpportunities, scoreOpportunity, promiseAll, hq, ha, hb,
    cosineSimilarity_one_zero_same, cosineSimilarity_one_zero_opposite]
  simp [oppA, oppB, oppA1, oppBneg]

theorem scoreOpportunities_embedCex2 :
    scoreOpportunities embedCex2 [oppA, oppB] "software" = .ok [oppAneg, oppB1] := by
  have ha : embedCex2 (oppText oppA) = .ok [-1, 0] := rfl
  have hb : embedCex2 (oppText oppB) = .ok [1, 0] := rfl
  have hq : embedCex2 "software" = .ok [1, 0] := rfl
  simp only [scoreOpportunities, scoreOpportunity, promiseAll, hq, ha, hb,
    cosineSimilarity_one_zero_same, cosineSimilarity_one_zero_opposite]
  simp [oppA, oppB, oppAneg, oppB1]

theorem sortByScoreDesc_pair_sorted (x y : SAMOpportunity)
    (h : scoreGE x y) : sortByScoreDesc [x, y] = [x, y] := by
  rw [sortByScoreDesc]
  simp only [List.insertionSort, List.orderedInsert]
  rw [if_pos h]

theorem sortByScoreDesc_pair_swap (x y : SAMOpportunity)
    (h : ¬ scoreGE x y) : sortByScoreDesc [x, y] = [y, x] := by
  rw [sortByScoreDesc]
  simp only [List.insertionSort, List.orderedInsert]
  rw [if_neg h]

/-- C3 counterexample: with a non-empty query and successful embeddings,
`performSemanticSearch` returns the ranked list WITHOUT filtering
non-positive scores — an opportunity whose similarity is -1 is still in the
returned list, contradicting the claimed `score <= 0` filter. -/
theorem semantic_search_keeps_nonpositive_scores :
    performSemanticSearch embedCex [oppA, oppB] "software" = [oppA1, oppBneg] ∧
    oppBneg ∈ performSemanticSearch embedCex [oppA, oppB] "software" ∧
    oppBneg.relevanceScore ≤ 0 := by
  have hsort : sortByScoreDesc [oppA1, oppBneg] = [oppA1, oppBneg] :=
    sortByScoreDesc_pair_sorted _ _ (by norm_num [scoreGE, oppA1, oppBneg])
  have hres : performSemanticSearch embedCex [oppA, oppB] "software" =
      [oppA1, oppBneg] := by
    rw [performSemanticSearch, if_neg (by decide), scoreOpportunities_embedCex]
    show (sortByScoreDesc [oppA1, oppBneg]).take 25 = [oppA1, oppBneg]
    rw [hsort]
    simp
  refine ⟨hres, by rw [hres]; simp, by norm_num [oppBneg]⟩

/-- C3 amended: when the query is non-empty (after trimming) and every
embedding call succeeds, the search path returns the scored opportunities
sorted by descending cosine-similarity score and truncated to the top 25 —
but applies NO positivity filter: when at most 25 items were scored, the
result is a permutation of the whole scored list, non-positive scores
included. -/
theorem semantic_search_ranked_top25_amended
    (embed : String → Except String (List ℝ)) (opps : List SAMOpportunity)
    (query : String) (scored : List SAMOpportunity)
    (hq : ¬ jsTrim query = "")
    (hok : scoreOpportunities embed opps query = .ok scored) :
    performSemanticSearch embed opps query = (sortByScoreDesc scored).take 25 ∧
    List.Sorted scoreGE (performSemanticSearch embed opps query) ∧
    (scored.length ≤ 25 → (performSemanticSearch embed opps query).Perm scored) := by
  have hres : performSemanticSearch embed opps query =
      (sortByScoreDesc scored).take 25 := by
    rw [performSemanticSearch, if_neg hq, hok]
  refine ⟨hres, ?_, ?_⟩
  · rw [hres, sortByScoreDesc]
    exact List.Pairwise.sublist (List.take_sublist _ _)
      (List.sorted_insertionSort scoreGE scored)
  · intro hlen
    rw [hres, sortByScoreDesc, List.take_of_length_le]
    · exact List.perm_insertionSort scoreGE scored
    · rw [List.length_insertionSort]
      exact hlen

theorem semantic_search_ranked_top25_amended_witness :
    performSemanticSearch embedCex2 [oppA, oppB] "software" =
      (sortByScoreDesc [oppAneg, oppB1]).take 25 ∧
    List.Sorted scoreGE (performSemanticSearch embedCex2 [oppA, oppB] "software") ∧
    ([oppAneg, oppB1].length ≤ 25 →
      (performSemanticSearch embedCex2 [oppA, oppB] "software").Perm
        [oppAneg, oppB1]) :=
  semantic_search_ranked_top25_amended embedCex2 [oppA, oppB] "software" _
    (by decide) scoreOpportunities_embedCex2

/-- C6: when any embedding call fails during semantic ranking, the search
with a non-empty semantic query returns the unranked opportunity list from
the upstream fetch instead of propagating the embedding error. -/
theorem semantic_search_degrades_on_embedding_failure
    (embed : String → Except String (List ℝ)) (opps : List SAMOpportunity)
    (query : String) (e : String) (hq : ¬ jsTrim query = "")
    (hfail : scoreOpportunities embed opps query = .error e) :
    performSemanticSearch embed opps query = opps := by
  rw [performSemanticSearch, if_neg hq, hfail]

theorem semantic_search_degrades_on_embedding_failure_witness :
    performSemanticSearch embedFail [oppA, oppB] "software" = [oppA, oppB] :=
  semantic_search_degrades_on_embedding_failure embedFail [oppA, oppB]
    "software" "OpenAI Embeddings API error: invalid api key" (by decide) rfl

theorem performSemanticSearch_embedCex2 :
    performSemanticSearch embedCex2 [oppA, oppB] "software" = [oppB1, oppAneg] := by
  have hsort : sortByScoreDesc [oppAneg, oppB1] = [oppB1, oppAneg] :=
    sortByScoreDesc_pair_swap _ _ (by norm_num [scoreGE, oppAneg, oppB1])
  rw [performSemanticSearch, if_neg (by decide), scoreOpportunities_embedCex2]
  show (sortByScoreDesc [oppAneg, oppB1]).take 25 = [oppB1, oppAneg]
  rw [hsort]
  simp

/-- C4 counterexample: on a cache miss with semantic ranking active, the
value stored in the result cache is the RANKED (post-ranking) opportunity
list, not the pre-ranking upstream result set: the upstream fetch returned
`[oppA, oppB]` but the cached payload holds the re-ordered, re-scored
`[oppB1, oppAneg]`. -/
theorem cache_stores_ranked_payload_cex :
    (handleSearch embedCex2 [oppA, oppB]
        [("q", "software"), ("semantic", "true")] (some "sk") [] 0).2 =
      [(serializeFilters (buildFilters [("q", "software"), ("semantic", "true")]),
        { data := { opportunities := [oppB1, oppAneg], totalRecords := 2,
                    limit := 50, offset := 0 },
          timestamp := 0 })] ∧
    [oppB1, oppAneg] ≠ [oppA, oppB] := by
  constructor
  · simp [handleSearch, assocFind, assocSet, buildFilters, parseIntJS,
      performSemanticSearch_embedCex2]
  · intro h
    simp [oppB1, oppAneg, oppA, oppB] at h

/-- C4 amended: on a cache miss the value stored under the canonical filter
key is exactly the response payload returned to the caller — including the
ranked and truncated opportunity list whenever semantic ranking ran — so the
cached and the returned payloads are always identical (the pre-ranking full
set is cached only when no ranking ran). -/
theorem cache_stores_returned_payload_amended
    (embed : String → Except String (List ℝ)) (fetched : List SAMOpportunity)
    (params : List (String × String)) (llmApiKey : Option String)
    (cache : SearchCache) (now : Int)
    (hmiss : ∀ c, assocFind cache (serializeFilters (buildFilters params)) = some c →
      CACHE_DURATION ≤ now - c.timestamp) :
    (handleSearch embed fetched params llmApiKey cache now).1.cached = false ∧
    assocFind (handleSearch embed fetched params llmApiKey cache now).2
        (serializeFilters (buildFilters params)) =
      some { data := (handleSearch embed fetched params llmApiKey cache now).1.response,
             timestamp := now } := by
  cases hfind : assocFind cache (serializeFilters (buildFilters params)) with
  | none =>
    constructor
    · simp [handleSearch, hfind]
    · simp [handleSearch, hfind, assocFind_assocSet]
  | some c =>
    have hexp : ¬ (now - c.timestamp < CACHE_DURATION) :=
      not_lt.mpr (hmiss c hfind)
    constructor
    · simp [handleSearch, hfind, hexp]
    · simp [handleSearch, hfind, hexp, assocFind_assocSet]

theorem cache_stores_returned_payload_amended_witness :
    (handleSearch embedFail [oppA] [("q", "software")] none [] 0).1.cached = false ∧
    assocFind (handleSearch embedFail [oppA] [("q", "software")] none [] 0).2
        (serializeFilters (buildFilters [("q", "software")])) =
      some { data := (handleSearch embedFail [oppA] [("q", "software")] none
               [] 0).1.response,
             timestamp := 0 } :=
  cache_stores_returned_payload_amended embedFail [oppA] [("q", "software")]
    none [] 0 (fun c h => by simp [assocFind] at h)

end OpenSAM
